import Mathlib

/-!
Shallow embedding of the QR-code styling renderer of this repository
(src/client/src/lib/qrCodeGenerator.ts and src/client/src/lib/qrCodeStyling.ts),
together with theorems checking the natural-language specification against it.

Conventions of the embedding:
* TypeScript optional fields become `Option` fields; JavaScript truthiness of a
  string is "present and non-empty", of a number is "not zero".
* Pixel coordinates and canvas geometry are rationals (`ℚ`); `Math.floor` is
  `Int.floor` / `Nat.floor`.  Canvas 2D drawing is idealized as exact vector
  geometry: a fill operation paints exactly the mathematical region of its
  shape, and drawing an image at an integer offset copies its pixels.
* Asynchronous image loading is made explicit: a stage that waits for an image
  to load receives the load outcome (`ImgLoad`) as a parameter, and the
  promise-resolution value is the function result.
-/

/-- Dot (module) styles: `'square' | 'dots' | 'rounded'` in qrCodeGenerator.ts. -/
inductive DotStyle
  | square
  | dots
  | rounded
  deriving DecidableEq, Repr

/-- Corner (finder) styles: `'square' | 'rounded' | 'extraRounded'`. -/
inductive CornerStyle
  | square
  | rounded
  | extraRounded
  deriving DecidableEq, Repr

/-- Frame styles: `'none' | 'simple' | 'double'`. -/
inductive FrameStyle
  | none
  | simple
  | double
  deriving DecidableEq, Repr

/-- The four QR error-correction levels (L/M/Q/H in the library call). -/
inductive EccLevel
  | low
  | medium
  | quartile
  | high
  deriving DecidableEq, Repr

/-- Rank of an error-correction level in the order LOW < MEDIUM < QUARTILE < HIGH. -/
def eccRank : EccLevel → ℕ
  | EccLevel.low => 0
  | EccLevel.medium => 1
  | EccLevel.quartile => 2
  | EccLevel.high => 3

/-- The `QrCodeOptions` interface of qrCodeGenerator.ts (optional fields as `Option`). -/
structure QrCodeOptions where
  size : ℕ
  margin : ℕ
  format : String
  includeText : Bool
  foregroundColor : Option String
  backgroundColor : Option String
  centerImage : Option String
  centerImageSize : Option ℚ
  centerImageIsClipArt : Bool
  cornerStyle : Option CornerStyle
  cornerRadius : Option ℚ
  dotStyle : Option DotStyle
  frameStyle : Option FrameStyle
  frameColor : Option String
  frameWidth : Option ℚ
  deriving DecidableEq

/-- JavaScript truthiness of an optional string: present and non-empty. -/
def strTruthy (s : Option String) : Bool :=
  match s with
  | Option.none => false
  | Option.some s => !s.isEmpty

/-- JavaScript `v || d` for an optional number `v`: `d` when `v` is absent or `0`. -/
def jsOrNum (v : Option ℚ) (d : ℚ) : ℚ :=
  match v with
  | Option.none => d
  | Option.some x => if x = 0 then d else x

def defaultFgColor : String := "#000000"

def defaultBgColor : String := "#FFFFFF"

/-- JavaScript `s || d` for an optional color string. -/
def jsOrStr (s : Option String) (d : String) : String :=
  match s with
  | Option.none => d
  | Option.some v => if v.isEmpty then d else v

/-- Effective foreground color: `options.foregroundColor || '#000000'`. -/
def effectiveFg (o : QrCodeOptions) : String := jsOrStr o.foregroundColor defaultFgColor

/-- Effective background color: `options.backgroundColor || '#FFFFFF'`. -/
def effectiveBg (o : QrCodeOptions) : String := jsOrStr o.backgroundColor defaultBgColor

/-! ## Error-correction policy (generateQrCode, qrCodeGenerator.ts lines 765-777) -/

/-- `options.centerImage` is truthy (a center image is present). -/
def hasCenterImageFeature (o : QrCodeOptions) : Bool := strTruthy o.centerImage

/-- `options.cornerStyle !== 'square'`. -/
def nonSquareCornerFeature (o : QrCodeOptions) : Bool :=
  decide (o.cornerStyle ≠ Option.some CornerStyle.square)

/-- `options.dotStyle !== 'square'`. -/
def nonSquareDotFeature (o : QrCodeOptions) : Bool :=
  decide (o.dotStyle ≠ Option.some DotStyle.square)

/-- `needsHighErrorCorrection = options.centerImage || cornerStyle !== 'square' || dotStyle !== 'square'`. -/
def needsHighErrorCorrection (o : QrCodeOptions) : Bool :=
  hasCenterImageFeature o || nonSquareCornerFeature o || nonSquareDotFeature o

/-- `needsHighestErrorCorrection`: any two styling features combined. -/
def needsHighestErrorCorrection (o : QrCodeOptions) : Bool :=
  (nonSquareCornerFeature o && nonSquareDotFeature o) ||
  (nonSquareCornerFeature o && hasCenterImageFeature o) ||
  (nonSquareDotFeature o && hasCenterImageFeature o)

/-- `errorCorrectionLevel = needsHighest ? 'H' : (needsHigh ? 'Q' : 'M')`. -/
def errorCorrectionLevel (o : QrCodeOptions) : EccLevel :=
  if needsHighestErrorCorrection o then EccLevel.high
  else if needsHighErrorCorrection o then EccLevel.quartile
  else EccLevel.medium

/-- Number of styling features that the policy looks at. -/
def styleFeatureCount (o : QrCodeOptions) : ℕ :=
  (if nonSquareDotFeature o then 1 else 0) +
  (if nonSquareCornerFeature o then 1 else 0) +
  (if hasCenterImageFeature o then 1 else 0)

theorem errorCorrectionLevel_eq_of_count (o : QrCodeOptions) :
    errorCorrectionLevel o =
      if 2 ≤ styleFeatureCount o then EccLevel.high
      else if 1 ≤ styleFeatureCount o then EccLevel.quartile
      else EccLevel.medium := by
  cases hd : nonSquareDotFeature o <;>
    cases hc : nonSquareCornerFeature o <;>
      cases hi : hasCenterImageFeature o <;>
        simp [errorCorrectionLevel, needsHighestErrorCorrection, needsHighErrorCorrection,
          styleFeatureCount, hd, hc, hi]

/-- A sample options record with every styling feature off. -/
def plainOpts : QrCodeOptions where
  size := 300
  margin := 4
  format := "png"
  includeText := false
  foregroundColor := Option.none
  backgroundColor := Option.none
  centerImage := Option.none
  centerImageSize := Option.none
  centerImageIsClipArt := false
  cornerStyle := Option.some CornerStyle.square
  cornerRadius := Option.none
  dotStyle := Option.some DotStyle.square
  frameStyle := Option.some FrameStyle.none
  frameColor := Option.none
  frameWidth := Option.none

/-- `plainOpts` with a non-square dot style (exactly one styling feature). -/
def dottedOpts : QrCodeOptions :=
  { plainOpts with dotStyle := Option.some DotStyle.dots }

/-- C1: for every StyleOptions (dot and corner styles specified, as in the spec's
data model), the policy yields MEDIUM with zero styling features, at least
QUARTILE with exactly one, HIGH with two or more, and never LOW. -/
theorem ecc_level_matches_feature_count (o : QrCodeOptions)
    (d : DotStyle) (c : CornerStyle)
    (_hd : o.dotStyle = Option.some d) (_hc : o.cornerStyle = Option.some c) :
    (styleFeatureCount o = 0 → errorCorrectionLevel o = EccLevel.medium) ∧
    (styleFeatureCount o = 1 → eccRank EccLevel.quartile ≤ eccRank (errorCorrectionLevel o)) ∧
    (2 ≤ styleFeatureCount o → errorCorrectionLevel o = EccLevel.high) ∧
    errorCorrectionLevel o ≠ EccLevel.low := by
  rw [errorCorrectionLevel_eq_of_count]
  refine ⟨fun h0 => ?_, fun h1 => ?_, fun h2 => ?_, ?_⟩
  · simp [h0]
  · simp [h1]
  · simp [h2]
  · split_ifs <;> simp [eccRank]

/-- Witness for C1 at a concrete one-feature StyleOptions. -/
theorem ecc_level_matches_feature_count_witness :
    (styleFeatureCount dottedOpts = 0 → errorCorrectionLevel dottedOpts = EccLevel.medium) ∧
    (styleFeatureCount dottedOpts = 1 →
      eccRank EccLevel.quartile ≤ eccRank (errorCorrectionLevel dottedOpts)) ∧
    (2 ≤ styleFeatureCount dottedOpts → errorCorrectionLevel dottedOpts = EccLevel.high) ∧
    errorCorrectionLevel dottedOpts ≠ EccLevel.low :=
  ecc_level_matches_feature_count dottedOpts DotStyle.dots CornerStyle.square rfl rfl

/-- C5: the policy is monotone: an options record with at most as many styling
features as another never receives a strictly higher redundancy level, so adding
a styling feature never decreases the chosen level. -/
theorem ecc_level_monotone (o o' : QrCodeOptions)
    (h : styleFeatureCount o ≤ styleFeatureCount o') :
    eccRank (errorCorrectionLevel o) ≤ eccRank (errorCorrectionLevel o') := by
  rw [errorCorrectionLevel_eq_of_count, errorCorrectionLevel_eq_of_count]
  split_ifs <;> simp [eccRank] <;> omega

/-- Witness for C5: no styling versus one dot-style feature. -/
theorem ecc_level_monotone_witness :
    eccRank (errorCorrectionLevel plainOpts) ≤ eccRank (errorCorrectionLevel dottedOpts) :=
  ecc_level_monotone plainOpts dottedOpts (by decide)

/-! ## Center-overlay size clamp (addCenterImageToQrCode, lines 84-86) -/

/-- `Math.min(Math.max(options.centerImageSize || 20, 1), 25)`. -/
def centerImgSizePercent (o : QrCodeOptions) : ℚ :=
  min (max (jsOrNum o.centerImageSize 20) 1) 25

/-- `centerImgSize = centerImgSizePercent / 100 * qrImage.width`. -/
def centerImgSize (o : QrCodeOptions) (qrImageWidth : ℚ) : ℚ :=
  centerImgSizePercent o / 100 * qrImageWidth

/-- Replace the requested center-image size of an options record. -/
def withCenterImageSize (o : QrCodeOptions) (v : Option ℚ) : QrCodeOptions :=
  { o with centerImageSize := v }

/-- C4: the effective center-image percent always lands in [1,25] (99 clamps to
25, -5 clamps to 1), and the overlay pixel size is that percent times the code
width divided by 100. -/
theorem center_image_percent_clamped (o : QrCodeOptions) (w : ℚ) :
    1 ≤ centerImgSizePercent o ∧ centerImgSizePercent o ≤ 25 ∧
    centerImgSize o w = centerImgSizePercent o * w / 100 ∧
    centerImgSizePercent (withCenterImageSize o (Option.some 99)) = 25 ∧
    centerImgSizePercent (withCenterImageSize o (Option.some (-5))) = 1 := by
  refine ⟨le_min (le_max_right _ _) (by norm_num), min_le_right _ _, ?_, ?_, ?_⟩
  · unfold centerImgSize; ring
  · norm_num [centerImgSizePercent, withCenterImageSize, jsOrNum, min_def, max_def]
  · norm_num [centerImgSizePercent, withCenterImageSize, jsOrNum, min_def, max_def]

/-- C10: a missing or zero `centerImageSize` falls back to the 20-percent
default before clamping, so a requested size of 0 yields a 20-percent overlay,
not the 1-percent clamp floor. -/
theorem center_image_zero_defaults_to_twenty (o : QrCodeOptions)
    (h : o.centerImageSize = Option.none ∨ o.centerImageSize = Option.some 0) :
    centerImgSizePercent o = 20 ∧ centerImgSizePercent o ≠ 1 := by
  have hv : jsOrNum o.centerImageSize 20 = 20 := by
    rcases h with h | h <;> simp [jsOrNum, h]
  have h20 : centerImgSizePercent o = 20 := by
    rw [centerImgSizePercent, hv]; norm_num [min_def, max_def]
  exact ⟨h20, by rw [h20]; norm_num⟩

/-- Witness for C10 at a concrete requested size of 0. -/
theorem center_image_zero_defaults_to_twenty_witness :
    centerImgSizePercent (withCenterImageSize plainOpts (Option.some 0)) = 20 ∧
    centerImgSizePercent (withCenterImageSize plainOpts (Option.some 0)) ≠ 1 :=
  center_image_zero_defaults_to_twenty (withCenterImageSize plainOpts (Option.some 0))
    (Or.inr rfl)

/-! ## Caption compositor (addTextToQrCode, qrCodeGenerator.ts lines 181-187 and
qrCodeStyling.ts lines 114-120; both files use the identical formulas) -/

def ellipsisText : String := "..."

/-- `displayText = text.length > 50 ? text.substring(0, 47) + '...' : text`. -/
def displayTextFor (text : String) : String :=
  if 50 < text.length then text.take 47 ++ ellipsisText else text

/-- `fontSize = Math.max(12, Math.min(16, Math.floor(image.width / 30)))`. -/
def fontSizeFor (width : ℕ) : ℕ :=
  max 12 (min 16 (Nat.floor ((width : ℚ) / 30)))

theorem fontSizeFor_eq_natDiv (w : ℕ) : fontSizeFor w = max 12 (min 16 (w / 30)) := by
  unfold fontSizeFor
  rw [show ((30 : ℚ)) = ((30 : ℕ) : ℚ) by norm_num, Nat.floor_div_nat]
  simp

/-- A 51-character caption used as witness input. -/
def longCaption : String := String.mk (List.replicate 51 'x')

/-- C9: captions of at most 50 characters render unchanged, longer captions
render as the first 47 characters plus an ellipsis, and the font size derived
from width/30 is clamped into [12,16]; it equals floor(width/30) whenever that
value already lies in the range. -/
theorem caption_truncation_and_font_clamp (t : String) (w : ℕ) :
    (t.length ≤ 50 → displayTextFor t = t) ∧
    (50 < t.length → displayTextFor t = t.take 47 ++ ellipsisText) ∧
    12 ≤ fontSizeFor w ∧ fontSizeFor w ≤ 16 ∧
    (360 ≤ w → w ≤ 509 → fontSizeFor w = w / 30) := by
  refine ⟨fun hle => ?_, fun hgt => ?_, ?_, ?_, fun h1 h2 => ?_⟩
  · simp [displayTextFor, Nat.not_lt.mpr hle]
  · simp [displayTextFor, hgt]
  · rw [fontSizeFor_eq_natDiv]; omega
  · rw [fontSizeFor_eq_natDiv]; omega
  · rw [fontSizeFor_eq_natDiv]; omega

/-- Witness for C9 at a 51-character caption and a 450-pixel-wide code. -/
theorem caption_truncation_and_font_clamp_witness :
    (longCaption.length ≤ 50 → displayTextFor longCaption = longCaption) ∧
    (50 < longCaption.length →
      displayTextFor longCaption = longCaption.take 47 ++ ellipsisText) ∧
    12 ≤ fontSizeFor 450 ∧ fontSizeFor 450 ≤ 16 ∧
    (360 ≤ 450 → 450 ≤ 509 → fontSizeFor 450 = 450 / 30) :=
  caption_truncation_and_font_clamp longCaption 450

/-! ## Frame compositor (addFrameToQrCode, qrCodeStyling.ts lines 148-245; the
inline frame stage of applyQrCodeStyling, qrCodeGenerator.ts lines 562-619, uses
the same fixed 3-percent frame width) -/

/-- An idealized raster image: integer dimensions plus a color at every pixel. -/
structure RasterImage where
  width : ℕ
  height : ℕ
  pixel : ℕ → ℕ → String

/-- `ctx.fillRect(x0, y0, rw, rh)` with fill color `c`, painted over `prev`. -/
def fillRectOp (x0 y0 rw rh : ℚ) (c : String) (prev : ℕ → ℕ → String) :
    ℕ → ℕ → String :=
  fun px py =>
    if x0 ≤ (px : ℚ) ∧ (px : ℚ) < x0 + rw ∧ y0 ≤ (py : ℚ) ∧ (py : ℚ) < y0 + rh then c
    else prev px py

/-- `ctx.drawImage(img, dx, dy)` at an integer offset, painted over `prev`. -/
def drawImageOp (dx dy : ℕ) (img : RasterImage) (prev : ℕ → ℕ → String) :
    ℕ → ℕ → String :=
  fun px py =>
    if dx ≤ px ∧ px < dx + img.width ∧ dy ≤ py ∧ py < dy + img.height then
      img.pixel (px - dx) (py - dy)
    else prev px py

theorem drawImageOp_offset (dx dy : ℕ) (img : RasterImage) (prev : ℕ → ℕ → String)
    (i j : ℕ) (hi : i < img.width) (hj : j < img.height) :
    drawImageOp dx dy img prev (dx + i) (dy + j) = img.pixel i j := by
  unfold drawImageOp
  have hcond : dx ≤ dx + i ∧ dx + i < dx + img.width ∧ dy ≤ dy + j ∧
      dy + j < dy + img.height := by omega
  rw [if_pos hcond]
  congr 1 <;> omega

/-- `options.frameColor || options.foregroundColor || '#000000'`. -/
def effectiveFrameColor (o : QrCodeOptions) : String :=
  jsOrStr o.frameColor (effectiveFg o)

/-- `const frameWidthPercent = 3;` — fixed in the source regardless of the
requested `frameWidth` option. -/
def frameWidthPercentUsed : ℚ := 3

/-- `frameSize = Math.floor(qrImage.width * (frameWidthPercent / 100))`. -/
def frameSizeFor (w : ℕ) : ℕ :=
  Nat.floor ((w : ℚ) * (frameWidthPercentUsed / 100))

/-- The frame compositor `addFrameToQrCode` on a successfully loaded image. -/
def addFrameToQrCode (o : QrCodeOptions) (img : RasterImage) : RasterImage :=
  match o.frameStyle with
  | Option.none => img
  | Option.some FrameStyle.none => img
  | Option.some FrameStyle.simple =>
      let f := frameSizeFor img.width
      let cw := img.width + f * 2
      let ch := img.height + f * 2
      let p0 : ℕ → ℕ → String := fillRectOp 0 0 cw ch (effectiveBg o) fun _ _ => effectiveBg o
      let p1 := fillRectOp 0 0 cw ch (effectiveFrameColor o) p0
      let p2 := fillRectOp f f img.width img.height (effectiveBg o) p1
      ⟨cw, ch, drawImageOp f f img p2⟩
  | Option.some FrameStyle.double =>
      let f := frameSizeFor img.width
      let cw := img.width + f * 2
      let ch := img.height + f * 2
      let inner : ℚ := (f : ℚ) / 2
      let p0 : ℕ → ℕ → String := fillRectOp 0 0 cw ch (effectiveBg o) fun _ _ => effectiveBg o
      let p1 := fillRectOp 0 0 cw ch (effectiveFrameColor o) p0
      let p2 := fillRectOp inner inner ((cw : ℚ) - inner * 2) ((ch : ℚ) - inner * 2)
        (effectiveBg o) p1
      let p3 := fillRectOp f f ((cw : ℚ) - (f : ℚ) * 2) ((ch : ℚ) - (f : ℚ) * 2)
        (effectiveFrameColor o) p2
      let p4 := fillRectOp ((f : ℚ) + inner) ((f : ℚ) + inner) img.width img.height
        (effectiveBg o) p3
      ⟨cw, ch, drawImageOp f f img p4⟩

/-- A 100x100 all-background test image. -/
def blankImage100 : RasterImage := ⟨100, 100, fun _ _ => defaultBgColor⟩

/-- Options asking for a simple frame of width 10 percent. -/
def framedOpts10 : QrCodeOptions :=
  { plainOpts with frameStyle := Option.some FrameStyle.simple
                   frameWidth := Option.some 10 }

/-- Counterexample to C6: with frameWidthPercent = 10 requested and codeWidth =
100, the claim predicts a frame of floor(100*10/100) = 10 pixels and a 120-pixel
canvas, but the compositor ignores the request and uses the fixed 3 percent,
giving a 106-pixel canvas. -/
theorem frame_width_percent_ignored_cex :
    framedOpts10.frameWidth = Option.some 10 ∧
    (addFrameToQrCode framedOpts10 blankImage100).width = 106 ∧
    (106 : ℕ) ≠ 100 + 2 * Nat.floor ((100 : ℚ) * 10 / 100) := by
  refine ⟨rfl, ?_, ?_⟩
  · have hf : frameSizeFor 100 = 3 := by
      rw [frameSizeFor, frameWidthPercentUsed]
      norm_num
    simp [addFrameToQrCode, framedOpts10, plainOpts, blankImage100, hf]
  · norm_num

/-- C6 (amended): the frame compositor always uses the fixed 3-percent frame
width: frameSize = floor(codeWidth*3/100) independent of the frameWidth option;
for simple and double frames both canvas dimensions grow by exactly 2*frameSize
and the unframed code reappears unscaled at offset (frameSize, frameSize); for
frameStyle none (or absent) the image is returned unchanged. -/
theorem frame_compositor_geometry (o : QrCodeOptions) (img : RasterImage) :
    ((o.frameStyle = Option.none ∨ o.frameStyle = Option.some FrameStyle.none) →
      addFrameToQrCode o img = img) ∧
    ((o.frameStyle = Option.some FrameStyle.simple ∨
      o.frameStyle = Option.some FrameStyle.double) →
      frameSizeFor img.width = Nat.floor ((img.width : ℚ) * 3 / 100) ∧
      (addFrameToQrCode o img).width = img.width + 2 * frameSizeFor img.width ∧
      (addFrameToQrCode o img).height = img.height + 2 * frameSizeFor img.width ∧
      ∀ i j, i < img.width → j < img.height →
        (addFrameToQrCode o img).pixel
            (frameSizeFor img.width + i) (frameSizeFor img.width + j) =
          img.pixel i j) := by
  constructor
  · rintro (h | h) <;> simp [addFrameToQrCode, h]
  · have hfs : frameSizeFor img.width = Nat.floor ((img.width : ℚ) * 3 / 100) := by
      rw [frameSizeFor, frameWidthPercentUsed]; ring_nf
    rintro (h | h) <;>
      refine ⟨hfs, ?_, ?_, fun i j hi hj => ?_⟩ <;>
        simp only [addFrameToQrCode, h] <;>
          first
            | omega
            | exact drawImageOp_offset _ _ img _ i j hi hj

/-- Witness for C6 (amended) at the concrete 100x100 image. -/
theorem frame_compositor_geometry_witness :
    frameSizeFor blankImage100.width = Nat.floor ((blankImage100.width : ℚ) * 3 / 100) ∧
    (addFrameToQrCode framedOpts10 blankImage100).width =
      blankImage100.width + 2 * frameSizeFor blankImage100.width ∧
    (addFrameToQrCode framedOpts10 blankImage100).height =
      blankImage100.height + 2 * frameSizeFor blankImage100.width ∧
    ∀ i j, i < blankImage100.width → j < blankImage100.height →
      (addFrameToQrCode framedOpts10 blankImage100).pixel
          (frameSizeFor blankImage100.width + i) (frameSizeFor blankImage100.width + j) =
        blankImage100.pixel i j :=
  (frame_compositor_geometry framedOpts10 blankImage100).2 (Or.inl rfl)

/-! ## Finder-pattern styling geometry

The in-pipeline finder styler lives inside `applyDotAndCornerStyling`
(qrCodeGenerator.ts lines 259-269 and 389-539); the standalone helper
`applyCornerStyleToFinder` (lines 663-753) draws the same nested structure.
A drawn rectangle records position, size, a per-corner rounding radius and
whether it is filled with the dark (foreground) or light (background) color. -/

structure DrawnRect where
  x : ℚ
  y : ℚ
  width : ℚ
  height : ℚ
  radiusTL : ℚ
  radiusTR : ℚ
  radiusBL : ℚ
  radiusBR : ℚ
  dark : Bool
  deriving DecidableEq, Repr

/-- The three nested layers drawn for one finder box, in draw order. -/
structure FinderDrawing where
  outerLayer : DrawnRect
  innerLayer : DrawnRect
  centerLayer : DrawnRect
  deriving DecidableEq, Repr

/-- `Math.floor(currentQrImage.width / 25)` (natural division is the floor). -/
def moduleEstimateFor (canvasW : ℕ) : ℕ := canvasW / 25

/-- The three finder boxes `[x, y, w, h]` of `applyDotAndCornerStyling`
(top-left, top-right, bottom-left), lines 265-269. -/
def finderPositionsFor (canvasW canvasH : ℕ) : List (ℚ × ℚ × ℚ × ℚ) :=
  let m := moduleEstimateFor canvasW
  let finderSize : ℚ := (m : ℚ) * 7
  let padding : ℚ := (m : ℚ) / 2
  [(padding, padding, finderSize, finderSize),
   ((canvasW : ℚ) - finderSize - padding, padding, finderSize, finderSize),
   (padding, (canvasH : ℚ) - finderSize - padding, finderSize, finderSize)]

/-- `Math.min(Math.max(options.cornerRadius || 10, 1), 25) / 100`
(line 435: the in-pipeline styler clamps to at most 25). -/
def dotPathBaseRadiusInModules (o : QrCodeOptions) : ℚ :=
  min (max (jsOrNum o.cornerRadius 10) 1) 25 / 100

/-- The outer 7x7 dark square of one finder box in `applyDotAndCornerStyling`
(lines 447-509): `square` draws a plain rect; `rounded`/`extraRounded` round the
single outward-facing corner, selected by comparing the box position against
`padding` and `canvas.width - finderSize - padding`. -/
def outerFinderRect (style : CornerStyle) (r x y w h canvasW padding finderSize : ℚ) :
    DrawnRect :=
  match style with
  | CornerStyle.square => ⟨x, y, w, h, 0, 0, 0, 0, true⟩
  | CornerStyle.rounded =>
      if x = padding ∧ y = padding then ⟨x, y, w, h, r, 0, 0, 0, true⟩
      else if x = canvasW - finderSize - padding ∧ y = padding then
        ⟨x, y, w, h, 0, r, 0, 0, true⟩
      else ⟨x, y, w, h, 0, 0, r, 0, true⟩
  | CornerStyle.extraRounded =>
      let extraRadius := r * 1.5
      if x = padding ∧ y = padding then ⟨x, y, w, h, extraRadius, 0, 0, 0, true⟩
      else if x = canvasW - finderSize - padding ∧ y = padding then
        ⟨x, y, w, h, 0, extraRadius, 0, 0, true⟩
      else ⟨x, y, w, h, 0, 0, extraRadius, 0, true⟩

/-- The drawing of one finder box by `applyDotAndCornerStyling` (lines 426-532):
outer 7x7 dark square, then the 5x5 inner light square and 3x3 center dark
square, both plain `fillRect`s. -/
def styledFinderLayers (o : QrCodeOptions) (canvasW padding finderSize x y w h : ℚ) :
    FinderDrawing :=
  let cornerStyle := o.cornerStyle.getD CornerStyle.square
  let moduleSize := w / 7
  let baseRadiusInModules := dotPathBaseRadiusInModules o
  let radius := moduleSize * baseRadiusInModules
  let innerMargin := moduleSize
  let innerSize := w - innerMargin * 2
  let centerMargin := moduleSize * 2
  let centerSize := w - centerMargin * 2
  { outerLayer := outerFinderRect cornerStyle radius x y w h canvasW padding finderSize
    innerLayer := ⟨x + innerMargin, y + innerMargin, innerSize, innerSize, 0, 0, 0, 0, false⟩
    centerLayer := ⟨x + centerMargin, y + centerMargin, centerSize, centerSize, 0, 0, 0, 0, true⟩ }

/-- The corner-styling pass over the three finder boxes of the canvas
(the loop at line 426). -/
def cornerStyledFinders (o : QrCodeOptions) (canvasW canvasH : ℕ) : List FinderDrawing :=
  let m := moduleEstimateFor canvasW
  let finderSize : ℚ := (m : ℚ) * 7
  let padding : ℚ := (m : ℚ) / 2
  (finderPositionsFor canvasW canvasH).map fun q =>
    styledFinderLayers o (canvasW : ℚ) padding finderSize q.1 q.2.1 q.2.2.1 q.2.2.2

/-- Position argument of `applyCornerStyleToFinder`. -/
inductive FinderPosition
  | topLeft
  | topRight
  | bottomLeft
  deriving DecidableEq, Repr

/-- `Math.min(Math.max(options.cornerRadius || 10, 1), 30) / 100`
(line 680: the standalone helper clamps to at most 30). -/
def helperBaseRadiusPercent (o : QrCodeOptions) : ℚ :=
  min (max (jsOrNum o.cornerRadius 10) 1) 30 / 100

/-- Drawing of `applyCornerStyleToFinder` (lines 663-753): background fill of
the whole box, then the outer square (one outward corner rounded for
`rounded`/`extraRounded`), then always-square inner light and center dark fills. -/
structure FinderHelperDrawing where
  backgroundFill : DrawnRect
  outerLayer : DrawnRect
  innerLayer : DrawnRect
  centerLayer : DrawnRect
  deriving DecidableEq, Repr

def applyCornerStyleToFinder (o : QrCodeOptions) (x y size : ℚ)
    (pos : FinderPosition) : FinderHelperDrawing :=
  let moduleSize := size / 7
  let radius := moduleSize * helperBaseRadiusPercent o
  let outerBorderWidth := moduleSize
  let innerSquareSize := size - outerBorderWidth * 2
  let centerSize := innerSquareSize - outerBorderWidth * 2
  let outerRect : DrawnRect :=
    if o.cornerStyle = Option.some CornerStyle.rounded ∨
        o.cornerStyle = Option.some CornerStyle.extraRounded then
      let actualRadius :=
        if o.cornerStyle = Option.some CornerStyle.extraRounded then radius * 1.5 else radius
      match pos with
      | FinderPosition.topLeft => ⟨x, y, size, size, actualRadius, 0, 0, 0, true⟩
      | FinderPosition.topRight => ⟨x, y, size, size, 0, actualRadius, 0, 0, true⟩
      | FinderPosition.bottomLeft => ⟨x, y, size, size, 0, 0, actualRadius, 0, true⟩
    else ⟨x, y, size, size, 0, 0, 0, 0, true⟩
  { backgroundFill := ⟨x, y, size, size, 0, 0, 0, 0, false⟩
    outerLayer := outerRect
    innerLayer := ⟨x + outerBorderWidth, y + outerBorderWidth,
      innerSquareSize, innerSquareSize, 0, 0, 0, 0, false⟩
    centerLayer := ⟨x + outerBorderWidth * 2, y + outerBorderWidth * 2,
      centerSize, centerSize, 0, 0, 0, 0, true⟩ }

/-- An axis-aligned perfect square with zero rounding on every corner. -/
def perfectSquareNoRounding (r : DrawnRect) : Prop :=
  r.width = r.height ∧ r.radiusTL = 0 ∧ r.radiusTR = 0 ∧ r.radiusBL = 0 ∧ r.radiusBR = 0

/-- `r` sits inside the box at `(bx, byy)` of side `bw`, inset by `k` modules
(one module = bw/7) on all four sides. -/
def insetSquareOf (r : DrawnRect) (bx byy bw k : ℚ) : Prop :=
  r.x = bx + k * (bw / 7) ∧ r.y = byy + k * (bw / 7) ∧
  r.x + r.width = bx + bw - k * (bw / 7) ∧ r.y + r.height = byy + bw - k * (bw / 7)

theorem outerFinderRect_frame (style : CornerStyle)
    (r x y w h canvasW padding finderSize : ℚ) :
    (outerFinderRect style r x y w h canvasW padding finderSize).x = x ∧
    (outerFinderRect style r x y w h canvasW padding finderSize).y = y ∧
    (outerFinderRect style r x y w h canvasW padding finderSize).width = w ∧
    (outerFinderRect style r x y w h canvasW padding finderSize).height = h := by
  cases style <;> unfold outerFinderRect <;> split_ifs <;> simp

/-- The inner-light/center-dark invariant for one finder drawing, relative to
the outer layer's own box. -/
def finderSquareInvariant (d : FinderDrawing) : Prop :=
  perfectSquareNoRounding d.innerLayer ∧ d.innerLayer.dark = false ∧
  insetSquareOf d.innerLayer d.outerLayer.x d.outerLayer.y d.outerLayer.width 1 ∧
  perfectSquareNoRounding d.centerLayer ∧ d.centerLayer.dark = true ∧
  insetSquareOf d.centerLayer d.outerLayer.x d.outerLayer.y d.outerLayer.width 2

theorem finderSquareInvariant_mk (outerR : DrawnRect) (x y w : ℚ)
    (hx : outerR.x = x) (hy : outerR.y = y) (hw : outerR.width = w) :
    finderSquareInvariant
      { outerLayer := outerR
        innerLayer := ⟨x + w / 7, y + w / 7, w - w / 7 * 2, w - w / 7 * 2, 0, 0, 0, 0, false⟩
        centerLayer := ⟨x + w / 7 * 2, y + w / 7 * 2, w - w / 7 * 2 * 2, w - w / 7 * 2 * 2,
          0, 0, 0, 0, true⟩ } := by
  unfold finderSquareInvariant perfectSquareNoRounding insetSquareOf
  simp only [hx, hy, hw]
  refine ⟨⟨?_, ?_, ?_, ?_, ?_⟩, ?_, ⟨?_, ?_, ?_, ?_⟩,
    ⟨?_, ?_, ?_, ?_, ?_⟩, ?_, ⟨?_, ?_, ?_, ?_⟩⟩ <;>
    first
      | trivial
      | ring

theorem styledFinderLayers_invariant (o : QrCodeOptions)
    (canvasW padding finderSize x y w h : ℚ) :
    finderSquareInvariant (styledFinderLayers o canvasW padding finderSize x y w h) := by
  obtain ⟨hx, hy, hw, hhh⟩ := outerFinderRect_frame (o.cornerStyle.getD CornerStyle.square)
    (w / 7 * dotPathBaseRadiusInModules o) x y w h canvasW padding finderSize
  exact finderSquareInvariant_mk _ x y w hx hy hw

/-- C2: in both finder-styling implementations, for every cornerStyle value and
each of the three finder boxes, the inner light square is inset one module on
all sides and the center dark square two modules, and both are axis-aligned
perfect squares with zero corner rounding. -/
theorem finder_inner_center_always_square (o : QrCodeOptions)
    (canvasW canvasH : ℕ) (x y size : ℚ) (pos : FinderPosition) :
    (∀ d ∈ cornerStyledFinders o canvasW canvasH, finderSquareInvariant d) ∧
    (perfectSquareNoRounding (applyCornerStyleToFinder o x y size pos).innerLayer ∧
     (applyCornerStyleToFinder o x y size pos).innerLayer.dark = false ∧
     insetSquareOf (applyCornerStyleToFinder o x y size pos).innerLayer x y size 1 ∧
     perfectSquareNoRounding (applyCornerStyleToFinder o x y size pos).centerLayer ∧
     (applyCornerStyleToFinder o x y size pos).centerLayer.dark = true ∧
     insetSquareOf (applyCornerStyleToFinder o x y size pos).centerLayer x y size 2) := by
  constructor
  · intro d hd
    simp only [cornerStyledFinders, finderPositionsFor, List.map_cons, List.map_nil,
      List.mem_cons, List.not_mem_nil, or_false] at hd
    rcases hd with h | h | h <;> rw [h] <;> exact styledFinderLayers_invariant o _ _ _ _ _ _ _
  · unfold applyCornerStyleToFinder
    refine ⟨⟨rfl, rfl, rfl, rfl, rfl⟩, rfl, ⟨?_, ?_, ?_, ?_⟩,
      ⟨rfl, rfl, rfl, rfl, rfl⟩, rfl, ⟨?_, ?_, ?_, ?_⟩⟩ <;>
      simp only [insetSquareOf] <;> ring

/-- Witness for C2 at a concrete canvas and helper box. -/
theorem finder_inner_center_always_square_witness :
    (∀ d ∈ cornerStyledFinders dottedOpts 250 250, finderSquareInvariant d) ∧
    (perfectSquareNoRounding
        (applyCornerStyleToFinder dottedOpts 5 5 70 FinderPosition.topLeft).innerLayer ∧
     (applyCornerStyleToFinder dottedOpts 5 5 70 FinderPosition.topLeft).innerLayer.dark = false ∧
     insetSquareOf (applyCornerStyleToFinder dottedOpts 5 5 70 FinderPosition.topLeft).innerLayer
       5 5 70 1 ∧
     perfectSquareNoRounding
        (applyCornerStyleToFinder dottedOpts 5 5 70 FinderPosition.topLeft).centerLayer ∧
     (applyCornerStyleToFinder dottedOpts 5 5 70 FinderPosition.topLeft).centerLayer.dark = true ∧
     insetSquareOf (applyCornerStyleToFinder dottedOpts 5 5 70 FinderPosition.topLeft).centerLayer
       5 5 70 2) :=
  finder_inner_center_always_square dottedOpts 250 250 5 5 70 FinderPosition.topLeft

/-- Sum of the four corner radii of a drawn rectangle; the outer finder square
rounds at most one corner, so this is the magnitude of its rounding. -/
def totalCornerRounding (r : DrawnRect) : ℚ :=
  r.radiusTL + r.radiusTR + r.radiusBL + r.radiusBR

/-- Options requesting `rounded` corners with cornerRadiusPercent = 30. -/
def roundedOpts30 : QrCodeOptions :=
  { plainOpts with cornerStyle := Option.some CornerStyle.rounded
                   cornerRadius := Option.some 30 }

/-- Counterexample to C7: with cornerRadiusPercent = 30 and a 70-pixel finder
box (one module = 10 pixels) at the top-left position, the in-pipeline finder
styler rounds with radius 10*25/100 = 5/2 because it clamps the percent to at
most 25 (line 435), while the claim's clamp(30,1,30) percent of one module
would give 10*30/100 = 3. -/
theorem finder_radius_clamped_at_25_cex :
    (styledFinderLayers roundedOpts30 175 5 49 5 5 70 70).outerLayer.radiusTL = 5 / 2 ∧
    (70 / 7 : ℚ) * (min (max 30 1) 30 / 100) = 3 ∧
    (5 / 2 : ℚ) ≠ 3 := by
  refine ⟨?_, by norm_num [min_def, max_def], by norm_num⟩
  norm_num [styledFinderLayers, outerFinderRect, roundedOpts30, plainOpts,
    dotPathBaseRadiusInModules, jsOrNum, min_def, max_def]

/-- C7 (amended): the outer dark square's rounding is 0 for `square`; for
`rounded` it is clamp(cornerRadiusPercent,1,25) percent of one module
(size/7) in the in-pipeline finder styler of `applyDotAndCornerStyling`, and
clamp(cornerRadiusPercent,1,30) percent of one module in the standalone
`applyCornerStyleToFinder` helper; `extraRounded` uses 1.5 times the
respective value (default percent 10 when the option is unset or 0). -/
theorem finder_outer_radius_formulas (o : QrCodeOptions)
    (canvasW padding finderSize x y w h xx yy size : ℚ) (pos : FinderPosition) :
    (o.cornerStyle = Option.some CornerStyle.square →
      totalCornerRounding (styledFinderLayers o canvasW padding finderSize x y w h).outerLayer
        = 0 ∧
      totalCornerRounding (applyCornerStyleToFinder o xx yy size pos).outerLayer = 0) ∧
    (o.cornerStyle = Option.some CornerStyle.rounded →
      totalCornerRounding (styledFinderLayers o canvasW padding finderSize x y w h).outerLayer
        = w / 7 * (min (max (jsOrNum o.cornerRadius 10) 1) 25 / 100) ∧
      totalCornerRounding (applyCornerStyleToFinder o xx yy size pos).outerLayer
        = size / 7 * (min (max (jsOrNum o.cornerRadius 10) 1) 30 / 100)) ∧
    (o.cornerStyle = Option.some CornerStyle.extraRounded →
      totalCornerRounding (styledFinderLayers o canvasW padding finderSize x y w h).outerLayer
        = w / 7 * (min (max (jsOrNum o.cornerRadius 10) 1) 25 / 100) * 1.5 ∧
      totalCornerRounding (applyCornerStyleToFinder o xx yy size pos).outerLayer
        = size / 7 * (min (max (jsOrNum o.cornerRadius 10) 1) 30 / 100) * 1.5) := by
  refine ⟨fun hsq => ⟨?_, ?_⟩, fun hr => ⟨?_, ?_⟩, fun he => ⟨?_, ?_⟩⟩
  · simp [styledFinderLayers, outerFinderRect, totalCornerRounding, hsq]
  · cases pos <;> simp [applyCornerStyleToFinder, totalCornerRounding, hsq]
  · simp only [styledFinderLayers, outerFinderRect, totalCornerRounding,
      dotPathBaseRadiusInModules, hr, Option.getD_some]
    split_ifs <;> (simp; try ring)
  · cases pos <;>
      simp [applyCornerStyleToFinder, totalCornerRounding, helperBaseRadiusPercent, hr]
  · simp only [styledFinderLayers, outerFinderRect, totalCornerRounding,
      dotPathBaseRadiusInModules, he, Option.getD_some]
    split_ifs <;> (simp; try ring)
  · cases pos <;>
      simp [applyCornerStyleToFinder, totalCornerRounding, helperBaseRadiusPercent, he]

/-- Witness for C7 (amended) at the `rounded` style with percent 30. -/
theorem finder_outer_radius_formulas_witness :
    totalCornerRounding (styledFinderLayers roundedOpts30 175 5 49 5 5 70 70).outerLayer
      = 70 / 7 * (min (max (jsOrNum roundedOpts30.cornerRadius 10) 1) 25 / 100) ∧
    totalCornerRounding
        (applyCornerStyleToFinder roundedOpts30 3 3 70 FinderPosition.topLeft).outerLayer
      = 70 / 7 * (min (max (jsOrNum roundedOpts30.cornerRadius 10) 1) 30 / 100) :=
  (finder_outer_radius_formulas roundedOpts30 175 5 49 5 5 70 70 3 3 70
    FinderPosition.topLeft).2.1 rfl

/-! ## Module renderer (dot styling inside applyDotAndCornerStyling,
qrCodeGenerator.ts lines 310-387) -/

/-- `const gridSize = Math.floor(canvas.width / 25)` (natural division is the floor). -/
def gridSizeFor (canvasW : ℕ) : ℕ := canvasW / 25

/-- `Math.floor(x + gridSize / 2)`: the integer sample coordinate inside a cell. -/
def sampleCoord (x g : ℕ) : ℕ := Nat.floor ((x : ℚ) + (g : ℚ) / 2)

theorem sampleCoord_eq (x g : ℕ) : sampleCoord x g = x + g / 2 := by
  unfold sampleCoord
  rw [add_comm ((x : ℚ)), Nat.floor_add_nat (by positivity),
    show ((2 : ℚ)) = ((2 : ℕ) : ℚ) by norm_num, Nat.floor_div_nat, Nat.floor_natCast]
  omega

/-- `isInFinderArea(x, y)` (lines 315-324): inside some finder box padded by a
safety margin of one estimated module; the source compares `y` against
`fy + fw + safetyMargin` (box width, not height — they coincide here). -/
def isInFinderArea (canvasW canvasH : ℕ) (x y : ℕ) : Bool :=
  let m := moduleEstimateFor canvasW
  (finderPositionsFor canvasW canvasH).any fun q =>
    decide (q.1 - (m : ℚ) ≤ (x : ℚ) ∧ (x : ℚ) ≤ q.1 + q.2.2.1 + (m : ℚ) ∧
      q.2.1 - (m : ℚ) ≤ (y : ℚ) ∧ (y : ℚ) ≤ q.2.1 + q.2.2.1 + (m : ℚ))

/-- Membership in the closed disk with center `(cx, cy)` and radius `r`. -/
def inDisk (cx cy r px py : ℚ) : Prop :=
  (px - cx) ^ 2 + (py - cy) ^ 2 ≤ r ^ 2

/-- Membership in an axis-aligned rounded rectangle with uniform corner radius:
inside the bounding box, and inside the corner disk whenever the point lies in
one of the four corner zones. -/
def inRoundedRect (x y w h r px py : ℚ) : Prop :=
  x ≤ px ∧ px ≤ x + w ∧ y ≤ py ∧ py ≤ y + h ∧
  (px ≤ x + r → py ≤ y + r → inDisk (x + r) (y + r) r px py) ∧
  (x + w - r ≤ px → py ≤ y + r → inDisk (x + w - r) (y + r) r px py) ∧
  (px ≤ x + r → y + h - r ≤ py → inDisk (x + r) (y + h - r) r px py) ∧
  (x + w - r ≤ px → y + h - r ≤ py → inDisk (x + w - r) (y + h - r) r px py)

/-- The shape drawn for a dark cell at `(x, y)` (lines 353-378): a disk of
radius gridSize*0.45 centered in the cell for `dots`; a rounded rectangle
covering 80 percent of the cell with corner radius gridSize/5 for `rounded`.
For `square` the dot-styling pass does not run, so nothing is drawn by it. -/
def inDotShape (style : DotStyle) (x y g px py : ℚ) : Prop :=
  match style with
  | DotStyle.square => False
  | DotStyle.dots => inDisk (x + g / 2) (y + g / 2) (g * 0.45) px py
  | DotStyle.rounded =>
      inRoundedRect (x + g * 0.1) (y + g * 0.1) (g * 0.8) (g * 0.8) (g / 5) px py

instance (cx cy r px py : ℚ) : Decidable (inDisk cx cy r px py) := by
  unfold inDisk; infer_instance

instance (x y w h r px py : ℚ) : Decidable (inRoundedRect x y w h r px py) := by
  unfold inRoundedRect; infer_instance

instance (style : DotStyle) (x y g px py : ℚ) : Decidable (inDotShape style x y g px py) := by
  cases style <;> unfold inDotShape <;> infer_instance

/-- The scan loop of lines 331-381: a point `(px, py)` of the fresh canvas is
covered by a styled dot when some grid-aligned cell is outside the finder
areas, its sample point is in bounds and dark in the source raster `src`, and
the shape drawn for that cell contains the point. -/
def coveredByStyledDot (o : QrCodeOptions) (src : ℕ → ℕ → Bool) (canvasW canvasH : ℕ)
    (px py : ℚ) : Bool :=
  let g := gridSizeFor canvasW
  ((List.range canvasH).filter fun y => y % g == 0).any fun y =>
    ((List.range canvasW).filter fun x => x % g == 0).any fun x =>
      !isInFinderArea canvasW canvasH x y &&
      decide (sampleCoord x g < canvasW) && decide (sampleCoord y g < canvasH) &&
      src (sampleCoord x g) (sampleCoord y g) &&
      decide (inDotShape (o.dotStyle.getD DotStyle.square) (x : ℚ) (y : ℚ) (g : ℚ) px py)

/-- Color of the dot-styled canvas at a point: foreground where some styled dot
covers it, background elsewhere (the new canvas starts from a clean background
fill, line 307-308). -/
def dotStyledColorAt (o : QrCodeOptions) (src : ℕ → ℕ → Bool) (canvasW canvasH : ℕ)
    (px py : ℚ) : String :=
  if coveredByStyledDot o src canvasW canvasH px py then effectiveFg o else effectiveBg o

/-- Sample of the rendered image at the center of grid cell `(x, y)` after the
dot-styling stage: for `dots`/`rounded` this reads the redrawn canvas at the
exact cell center; for `square` the stage is skipped (guard at line 272) and
the original raster pixel under the center is read (the base QR paints dark
modules with the foreground color). -/
def renderedCellCenterColor (o : QrCodeOptions) (src : ℕ → ℕ → Bool)
    (canvasW canvasH x y : ℕ) : String :=
  let g := gridSizeFor canvasW
  if o.dotStyle = Option.some DotStyle.dots ∨ o.dotStyle = Option.some DotStyle.rounded then
    dotStyledColorAt o src canvasW canvasH ((x : ℚ) + (g : ℚ) / 2) ((y : ℚ) + (g : ℚ) / 2)
  else if src (sampleCoord x g) (sampleCoord y g) then effectiveFg o else effectiveBg o

theorem center_in_dots_shape (x y g : ℚ) (_hg : 0 < g) :
    inDotShape DotStyle.dots x y g (x + g / 2) (y + g / 2) := by
  unfold inDotShape inDisk
  nlinarith [sq_nonneg (g * 0.45)]

theorem center_in_rounded_shape (x y g : ℚ) (hg : 0 < g) :
    inDotShape DotStyle.rounded x y g (x + g / 2) (y + g / 2) := by
  unfold inDotShape inRoundedRect inDisk
  norm_num
  refine ⟨by linarith, by linarith, by linarith, by linarith, ?_, ?_, ?_, ?_⟩ <;>
    intro h1 h2 <;> linarith

theorem coveredByStyledDot_of_cell (o : QrCodeOptions) (src : ℕ → ℕ → Bool)
    (canvasW canvasH x y : ℕ) (px py : ℚ)
    (hx : x % gridSizeFor canvasW = 0) (hy : y % gridSizeFor canvasW = 0)
    (hxW : x < canvasW) (hyH : y < canvasH)
    (hfind : isInFinderArea canvasW canvasH x y = false)
    (hsx : sampleCoord x (gridSizeFor canvasW) < canvasW)
    (hsy : sampleCoord y (gridSizeFor canvasW) < canvasH)
    (hdark : src (sampleCoord x (gridSizeFor canvasW)) (sampleCoord y (gridSizeFor canvasW)) = true)
    (hshape : inDotShape (o.dotStyle.getD DotStyle.square)
      (x : ℚ) (y : ℚ) (gridSizeFor canvasW : ℚ) px py) :
    coveredByStyledDot o src canvasW canvasH px py = true := by
  unfold coveredByStyledDot
  rw [List.any_eq_true]
  refine ⟨y, ?_, ?_⟩
  · rw [List.mem_filter, List.mem_range]
    exact ⟨hyH, by simpa using hy⟩
  · rw [List.any_eq_true]
    refine ⟨x, ?_, ?_⟩
    · rw [List.mem_filter, List.mem_range]
      exact ⟨hxW, by simpa using hx⟩
    · simp [hfind, hsx, hsy, hdark, hshape]

/-- C3: for every dotStyle value, a source-dark grid cell outside the finder
areas (with its sample point in bounds) still samples as the foreground color
at its cell center after dot styling. -/
theorem dark_module_center_stays_foreground (o : QrCodeOptions)
    (src : ℕ → ℕ → Bool) (canvasW canvasH x y : ℕ)
    (hg : 0 < gridSizeFor canvasW)
    (hx : x % gridSizeFor canvasW = 0) (hy : y % gridSizeFor canvasW = 0)
    (hxW : x < canvasW) (hyH : y < canvasH)
    (hfind : isInFinderArea canvasW canvasH x y = false)
    (hsx : sampleCoord x (gridSizeFor canvasW) < canvasW)
    (hsy : sampleCoord y (gridSizeFor canvasW) < canvasH)
    (hdark : src (sampleCoord x (gridSizeFor canvasW))
      (sampleCoord y (gridSizeFor canvasW)) = true) :
    renderedCellCenterColor o src canvasW canvasH x y = effectiveFg o := by
  have hgq : (0 : ℚ) < (gridSizeFor canvasW : ℚ) := by exact_mod_cast hg
  unfold renderedCellCenterColor
  by_cases hstyle : o.dotStyle = Option.some DotStyle.dots ∨
      o.dotStyle = Option.some DotStyle.rounded
  · rw [if_pos hstyle]
    have hshape : inDotShape (o.dotStyle.getD DotStyle.square)
        (x : ℚ) (y : ℚ) (gridSizeFor canvasW : ℚ)
        ((x : ℚ) + (gridSizeFor canvasW : ℚ) / 2)
        ((y : ℚ) + (gridSizeFor canvasW : ℚ) / 2) := by
      rcases hstyle with h | h <;> rw [h]
      · exact center_in_dots_shape _ _ _ hgq
      · exact center_in_rounded_shape _ _ _ hgq
    have hcov := coveredByStyledDot_of_cell o src canvasW canvasH x y
      ((x : ℚ) + (gridSizeFor canvasW : ℚ) / 2) ((y : ℚ) + (gridSizeFor canvasW : ℚ) / 2)
      hx hy hxW hyH hfind hsx hsy hdark hshape
    unfold dotStyledColorAt
    rw [if_pos hcov]
  · rw [if_neg hstyle, if_pos hdark]

/-- An all-dark source raster, used as witness input. -/
def allDarkSrc : ℕ → ℕ → Bool := fun _ _ => true

/-- Witness for C3: a 50x50 canvas (gridSize 2), dark cell (24, 24) outside the
finder areas. -/
theorem dark_module_center_stays_foreground_witness :
    renderedCellCenterColor dottedOpts allDarkSrc 50 50 24 24 = effectiveFg dottedOpts := by
  refine dark_module_center_stays_foreground dottedOpts allDarkSrc 50 50 24 24 ?_ ?_ ?_ ?_ ?_
    ?_ ?_ ?_ rfl
  · norm_num [gridSizeFor]
  · norm_num [gridSizeFor]
  · norm_num [gridSizeFor]
  · norm_num
  · norm_num
  · simp only [isInFinderArea, finderPositionsFor, moduleEstimateFor, List.any_cons,
      List.any_nil]
    norm_num
  · rw [sampleCoord_eq]; norm_num [gridSizeFor]
  · rw [sampleCoord_eq]; norm_num [gridSizeFor]

/-! ## Center-overlay failure handling and the generate pipeline
(addCenterImageToQrCode, qrCodeGenerator.ts lines 55-145; generateQrCode,
lines 758-834).  The asynchronous loads are explicit `ImgLoad` outcomes; the
canvas composition on success and the other stages are abstract functions. -/

/-- Outcome of loading one image asset. -/
inductive ImgLoad
  | loaded (img : RasterImage)
  | failed

/-- `addCenterImageToQrCode`: both `qrImage.onerror` and `centerImage.onerror`
resolve the promise with the original `qrCodeDataUrl` (lines 63-72); only when
both images load is the composed canvas data URL produced (lines 89-121). -/
def addCenterImageToQrCode (qrCodeDataUrl : String)
    (qrLoad centerLoad : ImgLoad) (compose : RasterImage → RasterImage → String) : String :=
  match qrLoad with
  | ImgLoad.failed => qrCodeDataUrl
  | ImgLoad.loaded qrImg =>
      match centerLoad with
      | ImgLoad.failed => qrCodeDataUrl
      | ImgLoad.loaded centerImg => compose qrImg centerImg

/-- The `generateQrCode` pipeline after the base encode (lines 798-829):
styling runs when any of frameStyle/cornerStyle/dotStyle is set, the center
overlay runs when `options.centerImage` is truthy, and the caption stage runs
when `includeText` is set. -/
def generateQrCode (o : QrCodeOptions) (baseQr : String)
    (styling : String → String) (qrLoad centerLoad : ImgLoad)
    (compose : RasterImage → RasterImage → String) (caption : String → String) : String :=
  let styled :=
    if o.frameStyle.isSome ∨ o.cornerStyle.isSome ∨ o.dotStyle.isSome then styling baseQr
    else baseQr
  let withCenter :=
    if strTruthy o.centerImage then addCenterImageToQrCode styled qrLoad centerLoad compose
    else styled
  if o.includeText then caption withCenter else withCenter

/-- The same pipeline with the center-overlay stage replaced by the identity:
the "valid, un-overlaid code" of the failure policy. -/
def generateQrCodeNoOverlay (o : QrCodeOptions) (baseQr : String)
    (styling caption : String → String) : String :=
  let styled :=
    if o.frameStyle.isSome ∨ o.cornerStyle.isSome ∨ o.dotStyle.isSome then styling baseQr
    else baseQr
  if o.includeText then caption styled else styled

/-- C8: if loading or decoding the center-image asset fails, the overlay stage
resolves with its unmodified input (also when the QR image itself fails to
load), and the whole pipeline returns exactly the un-overlaid code. -/
theorem center_overlay_failure_degrades_gracefully (o : QrCodeOptions)
    (s baseQr : String) (qrLoad : ImgLoad)
    (compose : RasterImage → RasterImage → String) (styling caption : String → String) :
    addCenterImageToQrCode s qrLoad ImgLoad.failed compose = s ∧
    addCenterImageToQrCode s ImgLoad.failed ImgLoad.failed compose = s ∧
    generateQrCode o baseQr styling qrLoad ImgLoad.failed compose caption =
      generateQrCodeNoOverlay o baseQr styling caption := by
  refine ⟨?_, rfl, ?_⟩
  · cases qrLoad <;> rfl
  · unfold generateQrCode generateQrCodeNoOverlay
    cases qrLoad <;> split_ifs <;> rfl
